import Mathlib

/-!
Verification of the RCC beam design engine in `src/utils/rccCalculations.ts`
(repository Load-Distribution), shallow-embedded over the real numbers.
JavaScript `number` arithmetic is idealised as exact real arithmetic;
`Math.sqrt` is `Real.sqrt`, `Math.log10` is `Real.logb 10`, `toFixed(2)`
followed by `parseFloat` is rounding to two decimal places.
-/

namespace LoadDistribution

noncomputable section

/-! ## Data model (`src/types.ts`) -/

inductive SteelGrade
  | Fe415
  | Fe500
  | Fe550
  deriving DecidableEq

/-- Numeric value of the steel grade enum (`Fe415 = 415`, ...). -/
def SteelGrade.val : SteelGrade → ℝ
  | .Fe415 => 415
  | .Fe500 => 500
  | .Fe550 => 550

inductive ConcreteGrade
  | M20
  | M25
  | M30
  | M35
  deriving DecidableEq

/-- Numeric value of the concrete grade enum (`M20 = 20`, ...). -/
def ConcreteGrade.val : ConcreteGrade → ℝ
  | .M20 => 20
  | .M25 => 25
  | .M30 => 30
  | .M35 => 35

inductive SlabType
  | OneWay
  | TwoWay
  deriving DecidableEq

inductive BeamSupportEdge
  | Short
  | Long
  deriving DecidableEq

structure SlabSideConfig where
  enabled : Bool
  slabType : SlabType
  lx : ℝ
  ly : ℝ
  supportEdge : BeamSupportEdge

structure DesignInputs where
  slabThickness : ℝ
  liveLoad : ℝ
  floorFinish : ℝ
  leftSlab : SlabSideConfig
  rightSlab : SlabSideConfig
  beamWidth : ℝ
  beamDepth : ℝ
  beamClearSpan : ℝ
  effectiveCover : ℝ
  wallHeight : ℝ
  wallThickness : ℝ
  fck : ConcreteGrade
  fy : SteelGrade
  mainBarDia : ℝ
  stirrupBarDia : ℝ

structure LoadResult where
  slabSelfWeight : ℝ
  totalSlabLoadArea : ℝ
  udlFromLeftSlab : ℝ
  udlFromRightSlab : ℝ
  udlTotalSlab : ℝ
  beamSelfWeight : ℝ
  wallLoad : ℝ
  totalDesignUDL : ℝ

structure AnalysisResult where
  maxMoment : ℝ
  maxShear : ℝ
  effectiveDepth : ℝ

structure DeflectionResult where
  actualLbyD : ℝ
  basicLbyD : ℝ
  modificationFactorKt : ℝ
  allowableLbyD : ℝ
  deflectionCheckPassed : Prop

structure DesignResult where
  muLim : ℝ
  isDoublyReinforced : Prop
  astRequired : ℝ
  ptProvided : ℝ
  numberOfBars : ℤ
  astProvided : ℝ
  tauV : ℝ
  tauC : ℝ
  shearReinforcementRequired : Prop
  stirrupSpacing : ℝ
  actualLbyD : ℝ
  basicLbyD : ℝ
  modificationFactorKt : ℝ
  allowableLbyD : ℝ
  deflectionCheckPassed : Prop

/-! ## Engine constants (`rccCalculations.ts` lines 3-5) -/

def CONCRETE_DENSITY : ℝ := 25

def MASONRY_DENSITY : ℝ := 20

def LOAD_SAFETY_FACTOR : ℝ := 1.5

/-- `parseFloat(x.toFixed(2))`: round to two decimal places. -/
def round2 (x : ℝ) : ℝ := (round (x * 100) : ℤ) / 100

/-! ## Tau_c interpolation (`getTauC`, lines 8-39)

The source's `points` and `m20vals` arrays, as total index functions
(indices 0..7; out-of-range defaults to the last entry, matching the
`Math.min(idx+1, points.length-1)` guard). -/

def tauPoints : ℕ → ℝ
  | 0 => 0.15
  | 1 => 0.25
  | 2 => 0.5
  | 3 => 0.75
  | 4 => 1.0
  | 5 => 1.25
  | 6 => 1.5
  | _ => 2.0

def tauM20vals : ℕ → ℝ
  | 0 => 0.28
  | 1 => 0.36
  | 2 => 0.48
  | 3 => 0.56
  | 4 => 0.62
  | 5 => 0.67
  | 6 => 0.72
  | _ => 0.79

/-- Result of the source's index-search loop
`while(idx < points.length - 1 && ptLimited > points[idx+1]) idx++`:
since `tauPoints` is strictly increasing, the loop stops at the largest
index whose breakpoint is still below `p` (0 if none). -/
def tauIdx (p : ℝ) : ℕ :=
  if p > tauPoints 7 then 7
  else if p > tauPoints 6 then 6
  else if p > tauPoints 5 then 5
  else if p > tauPoints 4 then 4
  else if p > tauPoints 3 then 3
  else if p > tauPoints 2 then 2
  else if p > tauPoints 1 then 1
  else 0

/-- `getTauC` (lines 8-39).  The source's `baseVal` local (lines 12-15) is
dead code — it is assigned but never read — and is therefore not modelled. -/
def getTauC (pt fck : ℝ) : ℝ :=
  let ptLimited := min (max pt 0.15) 3.0
  let idx := tauIdx ptLimited
  let t1 := tauM20vals idx
  let t2 := tauM20vals (min (idx + 1) 7)
  let p1 := tauPoints idx
  let p2 := tauPoints (min (idx + 1) 7)
  let tauM20 := if p2 ≠ p1 then t1 + (t2 - t1) * (ptLimited - p1) / (p2 - p1) else t1
  let gradeFactor := 1 + (fck - 20) * 0.01
  round2 (tauM20 * gradeFactor)

/-- Spec-side restatement of the pure interpolation part of `getTauC`
(the linearly interpolated M20 value at an already-clamped percentage),
used to state claim C10. -/
def tauM20Interp (p : ℝ) : ℝ :=
  let idx := tauIdx p
  let t1 := tauM20vals idx
  let t2 := tauM20vals (min (idx + 1) 7)
  let p1 := tauPoints idx
  let p2 := tauPoints (min (idx + 1) 7)
  if p2 ≠ p1 then t1 + (t2 - t1) * (p - p1) / (p2 - p1) else t1

/-! ## Load aggregation (`calculateSlabLoadPerMeter`, `calculateLoads`) -/

/-- `calculateSlabLoadPerMeter` (lines 41-67). -/
def calculateSlabLoadPerMeter (config : SlabSideConfig) (totalAreaLoad : ℝ) : ℝ :=
  if config.enabled then
    match config.slabType with
    | SlabType.OneWay => totalAreaLoad * config.lx / 2
    | SlabType.TwoWay =>
      match config.supportEdge with
      | BeamSupportEdge.Short => totalAreaLoad * config.lx / 3
      | BeamSupportEdge.Long =>
        let beta := config.ly / config.lx
        let factor := 1 - 1 / (3 * beta ^ 2)
        totalAreaLoad * config.lx / 2 * factor
  else 0

/-- `calculateLoads` (lines 69-103). -/
def calculateLoads (inputs : DesignInputs) : LoadResult :=
  let dSlabM := inputs.slabThickness / 1000
  let slabSelfWeight := dSlabM * CONCRETE_DENSITY
  let totalSlabLoadArea := slabSelfWeight + inputs.liveLoad + inputs.floorFinish
  let udlFromLeftSlab := calculateSlabLoadPerMeter inputs.leftSlab totalSlabLoadArea
  let udlFromRightSlab := calculateSlabLoadPerMeter inputs.rightSlab totalSlabLoadArea
  let udlTotalSlab := udlFromLeftSlab + udlFromRightSlab
  let bM := inputs.beamWidth / 1000
  let dM := inputs.beamDepth / 1000
  let beamSelfWeight := bM * dM * CONCRETE_DENSITY
  let wallThickM := inputs.wallThickness / 1000
  let wallLoad := wallThickM * inputs.wallHeight * MASONRY_DENSITY
  let totalServiceLoad := udlTotalSlab + beamSelfWeight + wallLoad
  let totalDesignUDL := totalServiceLoad * LOAD_SAFETY_FACTOR
  { slabSelfWeight := slabSelfWeight
    totalSlabLoadArea := totalSlabLoadArea
    udlFromLeftSlab := udlFromLeftSlab
    udlFromRightSlab := udlFromRightSlab
    udlTotalSlab := udlTotalSlab
    beamSelfWeight := beamSelfWeight
    wallLoad := wallLoad
    totalDesignUDL := totalDesignUDL }

/-! ## Section analysis (`analyzeBeam`, lines 105-118) -/

/-- `analyzeBeam` (lines 105-118). -/
def analyzeBeam (inputs : DesignInputs) (loads : LoadResult) : AnalysisResult :=
  let L := inputs.beamClearSpan
  let w := loads.totalDesignUDL
  { maxMoment := w * L * L / 8
    maxShear := w * L / 2
    effectiveDepth := inputs.beamDepth - inputs.effectiveCover }

/-! ## The richer engine variant (point loads, caller-supplied masonry density)

The repository contains a second, richer variant of the app: its `App`
component, report generator and diagram components (all present among the
sources) read `inputs.pointLoads`, `inputs.masonryDensity`,
`loads.factoredPointLoads` and per-position moment/shear samples, but the
`rccCalculations` variant they import is not among the available source
files — only these callers are.  The definitions below model that missing
engine from the spec (§3, §4.1, §4.2). -/

structure PointLoad where
  value : ℝ
  distance : ℝ

/-- Modelled from the spec: the rich variant's `DesignInputs` (spec §3) — the
data model of the missing rich `rccCalculations`/`types` modules, which adds
`pointLoads` (value/distance pairs; the UI-only generated `id` is dropped per
spec §9) and the caller-supplied `masonryDensity` to the fields above. -/
structure DesignInputsR where
  slabThickness : ℝ
  liveLoad : ℝ
  floorFinish : ℝ
  leftSlab : SlabSideConfig
  rightSlab : SlabSideConfig
  pointLoads : List PointLoad
  beamWidth : ℝ
  beamDepth : ℝ
  beamClearSpan : ℝ
  effectiveCover : ℝ
  wallHeight : ℝ
  wallThickness : ℝ
  masonryDensity : ℝ
  fck : ConcreteGrade
  fy : SteelGrade
  mainBarDia : ℝ
  stirrupBarDia : ℝ

structure LoadResultR where
  slabSelfWeight : ℝ
  totalSlabLoadArea : ℝ
  udlFromLeftSlab : ℝ
  udlFromRightSlab : ℝ
  udlTotalSlab : ℝ
  beamSelfWeight : ℝ
  wallLoad : ℝ
  factoredPointLoads : List PointLoad
  totalDesignUDL : ℝ

/-- Modelled from the spec: the rich variant's `calculateLoads` (spec §4.1),
missing from the available sources.  Steps 1-4 and 6 coincide with
`calculateLoads` above; step 5 uses the caller-supplied masonry density and
step 7 factors each point load's value by 1.5, distances unchanged. -/
def calculateLoadsR (inputs : DesignInputsR) : LoadResultR :=
  let dSlabM := inputs.slabThickness / 1000
  let slabSelfWeight := dSlabM * CONCRETE_DENSITY
  let totalSlabLoadArea := slabSelfWeight + inputs.liveLoad + inputs.floorFinish
  let udlFromLeftSlab := calculateSlabLoadPerMeter inputs.leftSlab totalSlabLoadArea
  let udlFromRightSlab := calculateSlabLoadPerMeter inputs.rightSlab totalSlabLoadArea
  let udlTotalSlab := udlFromLeftSlab + udlFromRightSlab
  let bM := inputs.beamWidth / 1000
  let dM := inputs.beamDepth / 1000
  let beamSelfWeight := bM * dM * CONCRETE_DENSITY
  let wallThickM := inputs.wallThickness / 1000
  let wallLoad := wallThickM * inputs.wallHeight * inputs.masonryDensity
  let totalServiceLoad := udlTotalSlab + beamSelfWeight + wallLoad
  let totalDesignUDL := totalServiceLoad * LOAD_SAFETY_FACTOR
  let factoredPointLoads :=
    inputs.pointLoads.map fun p => { value := p.value * LOAD_SAFETY_FACTOR, distance := p.distance }
  { slabSelfWeight := slabSelfWeight
    totalSlabLoadArea := totalSlabLoadArea
    udlFromLeftSlab := udlFromLeftSlab
    udlFromRightSlab := udlFromRightSlab
    udlTotalSlab := udlTotalSlab
    beamSelfWeight := beamSelfWeight
    wallLoad := wallLoad
    factoredPointLoads := factoredPointLoads
    totalDesignUDL := totalDesignUDL }

/-- Modelled from the spec: the rich variant's `analyzeBeam` (spec §4.2),
missing from the available sources.  Peak moment superposes each factored
point load's own peak `P·d·(L−d)/L`; peak shear adds each factored point
load's worst-case end reaction `P·max(d, L−d)/L`. -/
def analyzeBeamR (inputs : DesignInputsR) (loads : LoadResultR) : AnalysisResult :=
  let L := inputs.beamClearSpan
  let w := loads.totalDesignUDL
  { maxMoment := w * L * L / 8
      + (loads.factoredPointLoads.map fun p => p.value * p.distance * (L - p.distance) / L).sum
    maxShear := w * L / 2
      + (loads.factoredPointLoads.map fun p => p.value * max p.distance (L - p.distance) / L).sum
    effectiveDepth := inputs.beamDepth - inputs.effectiveCover }

/-! ## Deflection check (`checkDeflection`, lines 121-168) -/

/-- `checkDeflection` (lines 121-168). -/
def checkDeflection (spanM effDepthMm astRequired astProvided b fy : ℝ) : DeflectionResult :=
  let basicLbyD : ℝ := 20
  let pt := astProvided / (b * effDepthMm) * 100
  let fs := 0.58 * fy * (astRequired / astProvided)
  let safePt := max pt 0.1
  let denominator := 0.225 + 0.0032 * fs - 0.625 * Real.logb 10 safePt
  let kt0 := if denominator > 0 then 1 / denominator else 1.0
  let kt := min (max kt0 0.7) 2.0
  let allowableLbyD := basicLbyD * kt
  let actualLbyD := spanM * 1000 / effDepthMm
  { actualLbyD := actualLbyD
    basicLbyD := basicLbyD
    modificationFactorKt := kt
    allowableLbyD := allowableLbyD
    deflectionCheckPassed := actualLbyD ≤ allowableLbyD }

/-! ## Beam design (`designBeam`, lines 170-242) -/

/-- The `tcMax` conditional expression of `designBeam` (line 206). -/
def tcMaxFor (fck : ConcreteGrade) : ℝ :=
  if fck.val = 40 then 4.0
  else if fck.val ≥ 30 then 3.5
  else if fck.val ≥ 25 then 3.1
  else 2.8

/-- `designBeam` (lines 170-242).  The source defines the identical local
`asv` separately in the two non-failing shear branches; it is hoisted here.
`shearReinforcementRequired` is `true` exactly in the final shear branch. -/
def designBeam (inputs : DesignInputs) (analysis : AnalysisResult) : DesignResult :=
  let fck := inputs.fck.val
  let fy := inputs.fy.val
  let b := inputs.beamWidth
  let Mu := analysis.maxMoment
  let Vu := analysis.maxShear
  let d := analysis.effectiveDepth
  let k_lim : ℝ :=
    match inputs.fy with
    | SteelGrade.Fe415 => 0.138
    | SteelGrade.Fe500 => 0.133
    | SteelGrade.Fe550 => 0.129
  let MuLim := k_lim * fck * b * d * d / 1000000
  let astRequired0 :=
    if Mu > MuLim then
      0.5 * fck / fy * (1 - Real.sqrt (1 - 4.6 * (MuLim * 1000000) / (fck * b * d * d))) * b * d
    else
      0.5 * fck / fy
        * (1 - Real.sqrt (max 0 (1 - 4.6 * (Mu * 1000000) / (fck * b * d * d)))) * b * d
  let astMin := 0.85 * b * d / fy
  let astRequired := max astRequired0 astMin
  let areaOneBar := Real.pi / 4 * inputs.mainBarDia ^ 2
  let numberOfBars : ℤ := ⌈astRequired / areaOneBar⌉
  let astProvided := (numberOfBars : ℝ) * areaOneBar
  let tv := Vu * 1000 / (b * d)
  let ptProvided := astProvided / (b * d) * 100
  let tc := getTauC ptProvided fck
  let tcMax := tcMaxFor inputs.fck
  let asv := 2 * (Real.pi / 4) * inputs.stirrupBarDia ^ 2
  let stirrupSpacingRaw : ℝ :=
    if tv > tcMax then 0
    else if tv < tc then min (min (asv * 0.87 * fy / (0.4 * b)) (0.75 * d)) 300
    else min (min (0.87 * fy * asv * d / (Vu * 1000 - tc * b * d)) (0.75 * d)) 300
  let deflection := checkDeflection inputs.beamClearSpan d astRequired astProvided b fy
  { muLim := MuLim
    isDoublyReinforced := Mu > MuLim
    astRequired := astRequired
    ptProvided := ptProvided
    numberOfBars := numberOfBars
    astProvided := astProvided
    tauV := round2 tv
    tauC := tc
    shearReinforcementRequired := ¬ tv > tcMax ∧ ¬ tv < tc
    stirrupSpacing := (⌊stirrupSpacingRaw⌋ : ℝ)
    actualLbyD := deflection.actualLbyD
    basicLbyD := deflection.basicLbyD
    modificationFactorKt := deflection.modificationFactorKt
    allowableLbyD := deflection.allowableLbyD
    deflectionCheckPassed := deflection.deflectionCheckPassed }

/-- A concrete input set (the app's default design) used by witnesses. -/
def sampleInputs : DesignInputs :=
  { slabThickness := 125
    liveLoad := 3
    floorFinish := 1
    leftSlab := ⟨true, SlabType.TwoWay, 3, 4.5, BeamSupportEdge.Short⟩
    rightSlab := ⟨false, SlabType.TwoWay, 3, 4.5, BeamSupportEdge.Long⟩
    beamWidth := 230
    beamDepth := 450
    beamClearSpan := 3
    effectiveCover := 25
    wallHeight := 3
    wallThickness := 230
    fck := ConcreteGrade.M20
    fy := SteelGrade.Fe500
    mainBarDia := 16
    stirrupBarDia := 8 }

/-- A concrete analysis record used by witnesses. -/
def sampleAnalysis : AnalysisResult :=
  { maxMoment := 38.8, maxShear := 51.8, effectiveDepth := 425 }

/-- A concrete analysis record with a very large shear force, used by the
shear-failure witness. -/
def sampleAnalysisHighShear : AnalysisResult :=
  { maxMoment := 38.8, maxShear := 1000, effectiveDepth := 100 }

end

/-! ## Claims C1, C2, C6 -/

/-- Claim C1: for every `DesignInputs`, `totalDesignUDL` equals exactly 1.5
times the sum of the unfactored per-length contributions: left-slab UDL,
right-slab UDL, beam self-weight and wall load. -/
theorem totalDesignUDL_eq_factored_sum (inputs : DesignInputs) :
    (calculateLoads inputs).totalDesignUDL =
      1.5 * ((calculateLoads inputs).udlFromLeftSlab + (calculateLoads inputs).udlFromRightSlab
        + (calculateLoads inputs).beamSelfWeight + (calculateLoads inputs).wallLoad) := by
  simp only [calculateLoads, LOAD_SAFETY_FACTOR]
  ring

/-- Claim C2: the per-length slab transfer is `w·Lx/2` for an enabled OneWay
side, `w·Lx/3` for TwoWay supported on the Short edge, and
`w·Lx/2·(1 − 1/(3·β²))` with `β = Ly/Lx` for TwoWay supported on the Long
edge; a disabled side contributes exactly 0. -/
theorem slabLoadPerMeter_cases :
    (∀ (t : SlabType) (lx ly : ℝ) (e : BeamSupportEdge) (w : ℝ),
        calculateSlabLoadPerMeter ⟨false, t, lx, ly, e⟩ w = 0)
    ∧ (∀ (lx ly : ℝ) (e : BeamSupportEdge) (w : ℝ),
        calculateSlabLoadPerMeter ⟨true, SlabType.OneWay, lx, ly, e⟩ w = w * lx / 2)
    ∧ (∀ lx ly w : ℝ,
        calculateSlabLoadPerMeter ⟨true, SlabType.TwoWay, lx, ly, BeamSupportEdge.Short⟩ w
          = w * lx / 3)
    ∧ (∀ lx ly w : ℝ,
        calculateSlabLoadPerMeter ⟨true, SlabType.TwoWay, lx, ly, BeamSupportEdge.Long⟩ w
          = w * lx / 2 * (1 - 1 / (3 * (ly / lx) ^ 2))) := by
  refine ⟨?_, ?_, ?_, ?_⟩ <;> intros <;> simp [calculateSlabLoadPerMeter]

/-- Claim C6: for every inputs and aggregated loads (the engine in
`src/utils` has no point loads), the section analyzer returns peak moment
exactly `w·L²/8`, peak shear exactly `w·L/2`, and effective depth exactly
beam depth minus effective cover. -/
theorem analyzeBeam_formulas (inputs : DesignInputs) (loads : LoadResult) :
    (analyzeBeam inputs loads).maxMoment
        = loads.totalDesignUDL * inputs.beamClearSpan ^ 2 / 8
    ∧ (analyzeBeam inputs loads).maxShear = loads.totalDesignUDL * inputs.beamClearSpan / 2
    ∧ (analyzeBeam inputs loads).effectiveDepth = inputs.beamDepth - inputs.effectiveCover := by
  exact ⟨by simp only [analyzeBeam]; ring, by simp only [analyzeBeam], rfl⟩

/-- Claim C3: the engine multiplies each point load's force by 1.5 keeping
its distance, and the section analyzer's peak shear is the UDL peak `w·L/2`
plus `Σ Pᵢ·max(dᵢ, L−dᵢ)/L` over the factored point loads, its peak moment
the UDL peak `w·L²/8` plus `Σ Pᵢ·dᵢ·(L−dᵢ)/L` (modelled from the spec: the
rich engine variant is not among the available sources). -/
theorem pointLoads_factored_and_superposed (inputs : DesignInputsR) :
    (calculateLoadsR inputs).factoredPointLoads
        = inputs.pointLoads.map (fun p => ⟨1.5 * p.value, p.distance⟩)
    ∧ (analyzeBeamR inputs (calculateLoadsR inputs)).maxShear
        = (calculateLoadsR inputs).totalDesignUDL * inputs.beamClearSpan / 2
          + (inputs.pointLoads.map fun p =>
              1.5 * p.value * max p.distance (inputs.beamClearSpan - p.distance)
                / inputs.beamClearSpan).sum
    ∧ (analyzeBeamR inputs (calculateLoadsR inputs)).maxMoment
        = (calculateLoadsR inputs).totalDesignUDL * inputs.beamClearSpan ^ 2 / 8
          + (inputs.pointLoads.map fun p =>
              1.5 * p.value * p.distance * (inputs.beamClearSpan - p.distance)
                / inputs.beamClearSpan).sum := by
  refine ⟨?_, ?_, ?_⟩
  · simp only [calculateLoadsR, LOAD_SAFETY_FACTOR]
    exact List.map_congr_left fun p _ => by rw [mul_comm]
  · simp only [analyzeBeamR, calculateLoadsR, LOAD_SAFETY_FACTOR, List.map_map]
    congr 1
    refine congrArg List.sum (List.map_congr_left fun p _ => ?_)
    simp only [Function.comp_apply]
    ring
  · simp only [analyzeBeamR, calculateLoadsR, LOAD_SAFETY_FACTOR, List.map_map]
    congr 1
    · ring
    · refine congrArg List.sum (List.map_congr_left fun p _ => ?_)
      simp only [Function.comp_apply]
      ring

/-- Claim C7: the wall load per unit length is `(thickness/1000) ×
height × masonry density` with the density a caller-supplied input, so two
inputs differing only in masonry density give proportionally different wall
loads (modelled from the spec: the rich engine variant, whose callers read
`inputs.masonryDensity`, is not among the available sources). -/
theorem wallLoad_uses_caller_density (inputs : DesignInputsR) :
    (calculateLoadsR inputs).wallLoad
        = inputs.wallThickness / 1000 * inputs.wallHeight * inputs.masonryDensity
    ∧ ∀ d1 d2 : ℝ,
        (calculateLoadsR { inputs with masonryDensity := d1 }).wallLoad * d2
          = (calculateLoadsR { inputs with masonryDensity := d2 }).wallLoad * d1 := by
  refine ⟨rfl, fun d1 d2 => ?_⟩
  simp only [calculateLoadsR]
  ring

/-- Claim C8: the deflection check computes `kt` as the reciprocal of
`0.225 + 0.0032·fs − 0.625·log10(pt)` when that denominator is positive
(`pt` floored at 0.1, `fs = 0.58·fy·Ast_req/Ast_prov`) and 1.0 otherwise,
clamps it into [0.7, 2.0], sets allowable ratio `20·kt` and actual ratio
`span_mm/d`, and passes iff actual ≤ allowable. -/
theorem checkDeflection_formulas (spanM d astReq astProv b fy : ℝ) :
    (checkDeflection spanM d astReq astProv b fy).modificationFactorKt
        = min (max
            (if 0.225 + 0.0032 * (0.58 * fy * (astReq / astProv))
                - 0.625 * Real.logb 10 (max (astProv / (b * d) * 100) 0.1) > 0
             then 1 / (0.225 + 0.0032 * (0.58 * fy * (astReq / astProv))
                - 0.625 * Real.logb 10 (max (astProv / (b * d) * 100) 0.1))
             else 1.0) 0.7) 2.0
    ∧ (checkDeflection spanM d astReq astProv b fy).allowableLbyD
        = 20 * (checkDeflection spanM d astReq astProv b fy).modificationFactorKt
    ∧ (checkDeflection spanM d astReq astProv b fy).actualLbyD = spanM * 1000 / d
    ∧ ((checkDeflection spanM d astReq astProv b fy).deflectionCheckPassed
        ↔ (checkDeflection spanM d astReq astProv b fy).actualLbyD
            ≤ (checkDeflection spanM d astReq astProv b fy).allowableLbyD) := by
  exact ⟨rfl, rfl, rfl, Iff.rfl⟩

/-- Claim C4: for valid inputs (positive width and effective depth) the
flexural designer sets the doubly-reinforced flag exactly when `Mu > MuLim`
with `MuLim = k·fck·b·d²/1e6`, `k` keyed on the steel grade (0.138/0.133/
0.129); the final required steel area is the maximum of the quadratic-formula
value `0.5·(fck/fy)·(1 − √(max 0 (1 − 4.6·M·1e6/(fck·b·d²))))·b·d` —
evaluated at `M = MuLim` when doubly reinforced and `M = Mu` otherwise — and
the code minimum `0.85·b·d/fy`. -/
theorem flexural_design_formulas (inputs : DesignInputs) (analysis : AnalysisResult)
    (hb : 0 < inputs.beamWidth) (hd : 0 < analysis.effectiveDepth) :
    (designBeam inputs analysis).muLim
        = (match inputs.fy with
            | SteelGrade.Fe415 => (0.138 : ℝ)
            | SteelGrade.Fe500 => 0.133
            | SteelGrade.Fe550 => 0.129)
          * inputs.fck.val * inputs.beamWidth * analysis.effectiveDepth ^ 2 / 1000000
    ∧ ((designBeam inputs analysis).isDoublyReinforced
        ↔ analysis.maxMoment > (designBeam inputs analysis).muLim)
    ∧ (designBeam inputs analysis).astRequired
        = max
          (0.5 * (inputs.fck.val / inputs.fy.val)
            * (1 - Real.sqrt (max 0 (1 - 4.6
                * ((if analysis.maxMoment > (designBeam inputs analysis).muLim
                    then (designBeam inputs analysis).muLim
                    else analysis.maxMoment) * 1000000)
                / (inputs.fck.val * inputs.beamWidth * analysis.effectiveDepth ^ 2))))
            * inputs.beamWidth * analysis.effectiveDepth)
          (0.85 * inputs.beamWidth * analysis.effectiveDepth / inputs.fy.val) := by
  have hfck : 0 < inputs.fck.val := by cases inputs.fck <;> norm_num [ConcreteGrade.val]
  have hne : inputs.fck.val * inputs.beamWidth * analysis.effectiveDepth ^ 2 ≠ 0 := by
    positivity
  refine ⟨?_, Iff.rfl, ?_⟩
  · simp only [designBeam]
    ring
  · simp only [designBeam]
    set fck := inputs.fck.val
    set b := inputs.beamWidth
    set d := analysis.effectiveDepth
    set Mu := analysis.maxMoment
    set fy := inputs.fy.val
    set k := (match inputs.fy with
      | SteelGrade.Fe415 => (0.138 : ℝ)
      | SteelGrade.Fe500 => 0.133
      | SteelGrade.Fe550 => 0.129) with hk
    have hkpos : 0 < k ∧ 4.6 * k < 1 := by
      rw [hk]; cases inputs.fy <;> norm_num
    have hfckne : fck ≠ 0 := ne_of_gt hfck
    have hbne : b ≠ 0 := ne_of_gt hb
    have hdne : d ≠ 0 := ne_of_gt hd
    have hsq : fck * b * d ^ 2 = fck * b * d * d := by ring
    by_cases hMu : Mu > k * fck * b * d * d / 1000000
    · rw [if_pos hMu, if_pos hMu]
      have hrad : 1 - 4.6 * (k * fck * b * d * d / 1000000 * 1000000) / (fck * b * d * d)
          = 1 - 4.6 * k := by
        field_simp
        ring
      have hrad2 : 1 - 4.6 * (k * fck * b * d * d / 1000000 * 1000000) / (fck * b * d ^ 2)
          = 1 - 4.6 * k := by
        rw [hsq]; exact hrad
      have hmax : max 0 (1 - 4.6 * k) = 1 - 4.6 * k :=
        max_eq_right (by linarith [hkpos.1, hkpos.2])
      rw [hrad, hrad2, hmax]
      congr 1
      ring
    · rw [if_neg hMu, if_neg hMu]
      rw [hsq]
      congr 1
      ring

/-- Witness for C4 at the app's default section (b = 230 mm, d = 425 mm). -/
theorem flexural_design_formulas_witness :
    0 < sampleInputs.beamWidth ∧ 0 < sampleAnalysis.effectiveDepth ∧
      ((designBeam sampleInputs sampleAnalysis).isDoublyReinforced
        ↔ sampleAnalysis.maxMoment > (designBeam sampleInputs sampleAnalysis).muLim) :=
  ⟨by norm_num [sampleInputs], by norm_num [sampleAnalysis],
    (flexural_design_formulas sampleInputs sampleAnalysis
      (by norm_num [sampleInputs]) (by norm_num [sampleAnalysis])).2.1⟩

/-- Claim C5: whenever the nominal shear stress `τv = V·1000/(b·d)` exceeds
`τc,max`, the shear designer returns stirrup spacing exactly 0 and
shear-reinforcement-required false; and `τc,max` is the step function of
`fck`: 2.8 below 25, 3.1 on [25,30), 3.5 on [30,40), 4.0 from 40 up. -/
theorem shear_failure_flags (inputs : DesignInputs) (analysis : AnalysisResult)
    (h : analysis.maxShear * 1000 / (inputs.beamWidth * analysis.effectiveDepth)
          > tcMaxFor inputs.fck) :
    (designBeam inputs analysis).stirrupSpacing = 0
    ∧ ¬ (designBeam inputs analysis).shearReinforcementRequired
    ∧ ∀ g : ConcreteGrade,
        tcMaxFor g
          = if g.val < 25 then 2.8 else if g.val < 30 then 3.1
            else if g.val < 40 then 3.5 else 4.0 := by
  refine ⟨?_, ?_, ?_⟩
  · simp only [designBeam]
    rw [if_pos h]
    simp
  · simp only [designBeam]
    exact fun hc => hc.1 h
  · intro g
    cases g <;> norm_num [tcMaxFor, ConcreteGrade.val]

/-- Witness for C5: an overloaded section (V = 1000 kN on a 230×100 mm
section, τv ≈ 43.5 > τc,max = 2.8 for M20) yields spacing 0. -/
theorem shear_failure_flags_witness :
    sampleAnalysisHighShear.maxShear * 1000
        / (sampleInputs.beamWidth * sampleAnalysisHighShear.effectiveDepth)
      > tcMaxFor sampleInputs.fck
    ∧ (designBeam sampleInputs sampleAnalysisHighShear).stirrupSpacing = 0 :=
  ⟨by norm_num [sampleInputs, sampleAnalysisHighShear, tcMaxFor, ConcreteGrade.val],
    (shear_failure_flags sampleInputs sampleAnalysisHighShear
      (by norm_num [sampleInputs, sampleAnalysisHighShear, tcMaxFor, ConcreteGrade.val])).1⟩

/-- On the plateau `2 ≤ p` the interpolated M20 value is the last table
entry 0.79: at `p = 2` the interpolation from index 6 lands exactly on the
endpoint, and for `p > 2` index 7 makes `p1 = p2` so `t1 = 0.79` is taken. -/
lemma tauM20Interp_high {p : ℝ} (h2 : 2 ≤ p) : tauM20Interp p = 0.79 := by
  rcases eq_or_lt_of_le h2 with heq | hlt
  · rw [← heq]
    norm_num [tauM20Interp, tauIdx, tauPoints, tauM20vals]
  · have h7 : tauIdx p = 7 := by
      simp only [tauIdx]
      rw [if_pos (by norm_num [tauPoints]; linarith)]
    simp only [tauM20Interp, h7]
    norm_num [tauPoints, tauM20vals]

/-- For any percentage steel at or beyond the table's last breakpoint, the
returned capacity is the rounded product of 0.79 and the grade factor. -/
lemma getTauC_high (fck pt : ℝ) (h : 2 ≤ pt) :
    getTauC pt fck = round2 (0.79 * (1 + (fck - 20) * 0.01)) := by
  have hstruct : getTauC pt fck
      = round2 (tauM20Interp (min (max pt 0.15) 3.0) * (1 + (fck - 20) * 0.01)) := rfl
  rw [hstruct, max_eq_left (by linarith : (0.15:ℝ) ≤ pt),
    tauM20Interp_high (le_min h (by norm_num))]

/-- Claim C10: for any concrete grade the interpolator returns the same
capacity for all percentage-steel values at or above the last breakpoint 2.0
(the capacity is constant on [2.0, 3.0]); and every returned value is the
interpolated M20 value at the clamped percentage times the grade factor
`1 + (fck − 20)·0.01`, rounded to two decimal places. -/
theorem getTauC_plateau_and_structure :
    (∀ fck pt1 pt2 : ℝ, 2 ≤ pt1 → 2 ≤ pt2 → getTauC pt1 fck = getTauC pt2 fck)
    ∧ ∀ pt fck : ℝ,
        getTauC pt fck
          = round2 (tauM20Interp (min (max pt 0.15) 3.0) * (1 + (fck - 20) * 0.01)) := by
  refine ⟨fun fck pt1 pt2 h1 h2 => ?_, fun pt fck => rfl⟩
  rw [getTauC_high fck pt1 h1, getTauC_high fck pt2 h2]

/-- Witness for C10 at pt = 2 and pt = 3 with fck = 25. -/
theorem getTauC_plateau_witness :
    (2:ℝ) ≤ 2 ∧ (2:ℝ) ≤ 3 ∧ getTauC 2 25 = getTauC 3 25 :=
  ⟨le_refl 2, by norm_num,
    getTauC_plateau_and_structure.1 25 2 3 (le_refl 2) (by norm_num)⟩

/-- `2 ≤ log 10`, via `e² < 10`. -/
lemma two_le_log_ten : (2:ℝ) ≤ Real.log 10 := by
  have hexp : Real.exp 2 ≤ 10 := by
    have h := Real.exp_one_lt_d9
    have h2 : Real.exp 2 = Real.exp 1 * Real.exp 1 := by
      rw [← Real.exp_add]; norm_num
    nlinarith [Real.exp_pos 1]
  calc (2:ℝ) = Real.log (Real.exp 2) := (Real.log_exp 2).symm
    _ ≤ Real.log 10 := Real.log_le_log (Real.exp_pos 2) hexp

/-- Core arithmetic fact behind C9: raising the `kt` denominator by at most
`(r−1)/2` shrinks the clamped modification factor by at most the factor `r`. -/
lemma kt_clamp_ratio (x dd r : ℝ) (hr : 1 < r) (h0 : 0 ≤ dd)
    (hdr : dd ≤ 0.5 * (r - 1)) :
    min (max (if x > 0 then 1 / x else 1.0) 0.7) 2.0
      ≤ r * min (max (if x + dd > 0 then 1 / (x + dd) else 1.0) 0.7) 2.0 := by
  have hrpos : (0:ℝ) < r := by linarith
  by_cases hx : x > 0
  · have hy : x + dd > 0 := by linarith
    rw [if_pos hx, if_pos hy]
    have hB7 : (0.7:ℝ) ≤ min (max (1 / (x + dd)) 0.7) 2.0 :=
      le_min (le_max_right _ _) (by norm_num)
    have hA2 : min (max (1 / x) 0.7) 2.0 ≤ 2.0 := min_le_right _ _
    by_cases hy2 : (2:ℝ) ≤ 1 / (x + dd)
    · have hB2 : (2:ℝ) ≤ min (max (1 / (x + dd)) 0.7) 2.0 :=
        le_min (le_trans hy2 (le_max_left _ _)) (by norm_num)
      nlinarith
    · push_neg at hy2
      have hBlb : 1 / (x + dd) ≤ min (max (1 / (x + dd)) 0.7) 2.0 :=
        le_min (le_max_left _ _) (by linarith)
      have hrB : r / (x + dd) ≤ r * min (max (1 / (x + dd)) 0.7) 2.0 := by
        rw [div_eq_mul_one_div]
        exact mul_le_mul_of_nonneg_left hBlb (le_of_lt hrpos)
      by_cases hx05 : x < 0.5
      · have hylt : x + dd < 0.5 * r := by linarith
        have h2r : 2 < r / (x + dd) := by
          rw [lt_div_iff₀ hy]; linarith
        linarith
      · push_neg at hx05
        by_cases hA07 : 1 / x ≤ 0.7
        · have hAub : min (max (1 / x) 0.7) 2.0 ≤ 0.7 :=
            le_trans (min_le_left _ _) (le_of_eq (max_eq_right hA07))
          nlinarith
        · push_neg at hA07
          have hAub : min (max (1 / x) 0.7) 2.0 ≤ 1 / x :=
            le_trans (min_le_left _ _) (le_of_eq (max_eq_left (le_of_lt hA07)))
          have hyrx : x + dd ≤ r * x := by nlinarith
          have hineq : 1 / x ≤ r / (x + dd) := by
            rw [div_le_div_iff₀ hx hy]
            linarith
          linarith
  · rw [if_neg hx]
    have hxle : x ≤ 0 := not_lt.mp hx
    have hA1 : min (max (1.0:ℝ) 0.7) 2.0 = 1 := by norm_num
    rw [hA1]
    by_cases hy : x + dd > 0
    · rw [if_pos hy]
      by_cases hy2 : (2:ℝ) ≤ 1 / (x + dd)
      · have hB2 : (2:ℝ) ≤ min (max (1 / (x + dd)) 0.7) 2.0 :=
          le_min (le_trans hy2 (le_max_left _ _)) (by norm_num)
        nlinarith
      · push_neg at hy2
        have hBlb : 1 / (x + dd) ≤ min (max (1 / (x + dd)) 0.7) 2.0 :=
          le_min (le_max_left _ _) (by linarith)
        have hrB : r / (x + dd) ≤ r * min (max (1 / (x + dd)) 0.7) 2.0 := by
          rw [div_eq_mul_one_div]
          exact mul_le_mul_of_nonneg_left hBlb (le_of_lt hrpos)
        have h1r : 1 < r / (x + dd) := by
          rw [lt_div_iff₀ hy]; linarith
        linarith
    · rw [if_neg hy]
      have hB1 : min (max (1.0:ℝ) 0.7) 2.0 = 1 := by norm_num
      rw [hB1]
      linarith

set_option maxHeartbeats 1000000 in
/-- Claim C9: with all other arguments fixed and `0 < d1 < d2` (the span is
positive per the data-model invariant), the deflection check's actual
span/depth ratio strictly decreases, and a check that passes at `d1` also
passes at `d2`. -/
theorem deflection_depth_monotone (spanM d1 d2 astReq astProv b fy : ℝ)
    (hspan : 0 < spanM) (hd1 : 0 < d1) (h12 : d1 < d2) :
    (checkDeflection spanM d2 astReq astProv b fy).actualLbyD
        < (checkDeflection spanM d1 astReq astProv b fy).actualLbyD
    ∧ ((checkDeflection spanM d1 astReq astProv b fy).deflectionCheckPassed
        → (checkDeflection spanM d2 astReq astProv b fy).deflectionCheckPassed) := by
  have hd2 : 0 < d2 := lt_trans hd1 h12
  constructor
  · simp only [checkDeflection]
    exact div_lt_div_of_pos_left (by positivity) hd1 h12
  · simp only [checkDeflection]
    set pt1 := astProv / (b * d1) * 100 with hpt1
    set pt2 := astProv / (b * d2) * 100 with hpt2
    set fs := 0.58 * fy * (astReq / astProv) with hfs
    set q1 := max pt1 0.1 with hq1
    set q2 := max pt2 0.1 with hq2
    set den1 := 0.225 + 0.0032 * fs - 0.625 * Real.logb 10 q1 with hden1
    set den2 := 0.225 + 0.0032 * fs - 0.625 * Real.logb 10 q2 with hden2
    have hq2pos : (0:ℝ) < q2 := lt_of_lt_of_le (by norm_num) (le_max_right _ _)
    have hq1pos : (0:ℝ) < q1 := lt_of_lt_of_le (by norm_num) (le_max_right _ _)
    have hr : 1 < d2 / d1 := (one_lt_div hd1).mpr h12
    have hrpos : (0:ℝ) < d2 / d1 := by positivity
    have hptscale : pt1 = d2 / d1 * pt2 := by
      rw [hpt1, hpt2]
      rcases eq_or_ne b 0 with hb | hb
      · simp [hb]
      · field_simp
        ring
    have hq21 : q2 ≤ q1 := by
      rw [hq1, hq2]
      apply max_le _ (le_max_right _ _)
      rcases le_or_lt 0 pt2 with hp | hp
      · have hle : pt2 ≤ pt1 := by
          rw [hptscale]
          nlinarith
        exact le_trans hle (le_max_left _ _)
      · exact le_trans (by linarith : pt2 ≤ 0.1) (le_max_right _ _)
    have hq1r : q1 ≤ d2 / d1 * q2 := by
      rw [hq1, hq2]
      rw [mul_max_of_nonneg _ _ (le_of_lt hrpos), ← hptscale]
      exact max_le_max le_rfl (by nlinarith)
    have hlog21 : Real.logb 10 q2 ≤ Real.logb 10 q1 :=
      Real.logb_le_logb_of_le (by norm_num) hq2pos hq21
    have hlog10 : (2:ℝ) ≤ Real.log 10 := two_le_log_ten
    have hlogble : Real.logb 10 q1 ≤ Real.logb 10 (d2 / d1 * q2) :=
      Real.logb_le_logb_of_le (by norm_num) hq1pos hq1r
    have hlogmul : Real.logb 10 (d2 / d1 * q2)
        = Real.logb 10 (d2 / d1) + Real.logb 10 q2 :=
      Real.logb_mul (ne_of_gt hrpos) (ne_of_gt hq2pos)
    have hlogbr : Real.logb 10 (d2 / d1) ≤ (d2 / d1 - 1) / 2 := by
      have h1 : Real.log (d2 / d1) ≤ d2 / d1 - 1 :=
        Real.log_le_sub_one_of_pos hrpos
      have h2 : 0 ≤ Real.log (d2 / d1) := Real.log_nonneg (le_of_lt hr)
      rw [← Real.log_div_log]
      calc Real.log (d2 / d1) / Real.log 10 ≤ Real.log (d2 / d1) / 2 :=
            div_le_div_of_nonneg_left h2 (by norm_num) hlog10
        _ ≤ (d2 / d1 - 1) / 2 := by linarith
    have hdlog : Real.logb 10 q1 - Real.logb 10 q2 ≤ (d2 / d1 - 1) / 2 := by
      have h3 : Real.logb 10 q1 ≤ Real.logb 10 (d2 / d1) + Real.logb 10 q2 :=
        hlogble.trans (le_of_eq hlogmul)
      linarith
    have hden21 : den2 = den1 + 0.625 * (Real.logb 10 q1 - Real.logb 10 q2) := by
      rw [hden1, hden2]; ring
    have hkey := kt_clamp_ratio den1 (0.625 * (Real.logb 10 q1 - Real.logb 10 q2))
      (d2 / d1) hr (by linarith) (by linarith)
    rw [← hden21] at hkey
    intro hpass
    set kt1 := min (max (if den1 > 0 then 1 / den1 else 1.0) 0.7) 2.0 with hkt1
    set kt2 := min (max (if den2 > 0 then 1 / den2 else 1.0) 0.7) 2.0 with hkt2
    have h1 : spanM * 1000 ≤ 20 * kt1 * d1 := (div_le_iff₀ hd1).mp hpass
    have h3 : kt1 * d1 ≤ d2 / d1 * kt2 * d1 :=
      mul_le_mul_of_nonneg_right hkey (le_of_lt hd1)
    have h4 : d2 / d1 * kt2 * d1 = kt2 * d2 := by
      field_simp
      ring
    rw [div_le_iff₀ hd2]
    nlinarith [h1, h3, h4]

/-- Witness for C9 at span 3 m, depths 200 mm and 400 mm. -/
theorem deflection_depth_monotone_witness :
    (0:ℝ) < 3 ∧ (0:ℝ) < 200 ∧ (200:ℝ) < 400 ∧
      ((checkDeflection 3 400 500 500 230 415).actualLbyD
          < (checkDeflection 3 200 500 500 230 415).actualLbyD
        ∧ ((checkDeflection 3 200 500 500 230 415).deflectionCheckPassed
            → (checkDeflection 3 400 500 500 230 415).deflectionCheckPassed)) :=
  ⟨by norm_num, by norm_num, by norm_num,
    deflection_depth_monotone 3 200 400 500 500 230 415
      (by norm_num) (by norm_num) (by norm_num)⟩

end LoadDistribution
